import Mathlib

/-!
Shallow embedding of the pricing/aggregation core of the andaman-planner
trip-cost estimator, together with theorems settling the frozen claims
about it.

Source files embedded here:
* `src/cabPricing.js` — `norm`, `findCabLeg`, `calculateCabFare`;
* the prototype app variant containing `safeNum`, `MARKUP`,
  `cabDailyRates`/`median`, `estimateFerryCost`, `hotelsCost`,
  `activityCost` (the file beginning with `DATA_FILES`);
* `src/App.jsx` — `safeNum`, `baseSubtotal`/`taxAmount`/`grandTotal`.

JavaScript numbers are modelled by `JSVal`: a finite number carries an
exact rational; `NaN`/`Infinity`, strings, `undefined`, `null` and
booleans are separate constructors so that the truthiness and
`safeNum` coercions of the source can be stated faithfully.
-/

namespace Andaman

/-- A JavaScript value as it occurs in the planner's data rows:
a finite number, a non-finite number (`NaN` or `±Infinity`), a string,
`undefined`, `null`, or a boolean. -/
inductive JSVal where
  | num (q : ℚ)
  | nan
  | str (s : String)
  | undef
  | nullv
  | boolv (b : Bool)
deriving DecidableEq, Repr

/-- `safeNum` from the app variants:
`(n) => (typeof n === "number" && isFinite(n) ? n : 0)`. -/
def safeNum : JSVal → ℚ
  | .num q => q
  | _ => 0

/-- JavaScript truthiness of a `JSVal` (`0`, `NaN`, `""`, `undefined`,
`null` and `false` are falsy). -/
def jsTruthy : JSVal → Bool
  | .num q => q != 0
  | .nan => false
  | .str s => s != ""
  | .undef => false
  | .nullv => false
  | .boolv b => b

/-- JavaScript `a || b` on two values. -/
def jsOr (a b : JSVal) : JSVal := if jsTruthy a then a else b

/-- JavaScript `a || b` when both operands are already finite numbers
(as produced by `safeNum`): `0` is the only falsy finite number. -/
def qOr (a b : ℚ) : ℚ := if a = 0 then b else a

/-- JavaScript `a || b` when both operands are strings
(the empty string is the only falsy string). -/
def strOr (a b : String) : String := if a = "" then b else a

/-- JavaScript `Number(v)` restricted to the value shapes appearing in
the planner's data. A string is converted only when it is empty (`0`)
or all digits; other strings (none occur in fare positions of the data)
convert to `NaN`. -/
def jsNumber : JSVal → JSVal
  | .num q => .num q
  | .nan => .nan
  | .nullv => .num 0
  | .undef => .nan
  | .boolv b => .num (if b then 1 else 0)
  | .str s =>
    if s = "" then .num 0
    else if s.all Char.isDigit then .num ((s.toNat?.getD 0 : ℕ) : ℚ)
    else .nan

/-- Strip leading and trailing whitespace from a character list
(the behaviour of JS `String.prototype.trim` on the ASCII data of the
planner). -/
def trimChars (l : List Char) : List Char :=
  ((l.dropWhile Char.isWhitespace).reverse.dropWhile Char.isWhitespace).reverse

/-- `norm` from `src/cabPricing.js`:
`(v) => (v || "").toString().trim().toUpperCase()` applied to a string,
modelled character-wise (ASCII upper-casing, as in the data). -/
def norm (s : String) : String :=
  String.mk ((trimChars s.data).map Char.toUpper)

/-! ## Cab legs (`src/cabPricing.js`) -/

/-- A row of `cab_legs.json` as consumed by `src/cabPricing.js`.
A missing string field is modelled by `""` (both are falsy and
normalise identically). -/
structure CabLeg where
  islandId : String
  fromZone : String
  toZone : String
  tripType : String
  vehicleClass : String
  serviceClass : String
  dayFareINR : JSVal
  nightFareINR : JSVal
deriving DecidableEq, Repr

/-- The request object of `findCabLeg`; a field left at its JS default
or passed as `undefined`/`""` is modelled by `""` (the code applies
`norm(x || DEFAULT)` in every optional position). -/
structure CabQuery where
  islandId : String
  fromZone : String
  toZone : String
  tripType : String
  vehicleClass : String
  serviceClass : String
deriving DecidableEq, Repr

/-- Layer 1 of `findCabLeg`: strict match on all six fields. -/
def legMatch1 (island fromZ toZ trip veh svc : String) (leg : CabLeg) : Bool :=
  (norm leg.islandId == island) && (norm leg.fromZone == fromZ) &&
  (norm leg.toZone == toZ) && (norm (strOr leg.tripType ("ONE_WAY")) == trip) &&
  (norm (strOr leg.vehicleClass ("SEDAN")) == veh) &&
  (norm (strOr leg.serviceClass ("PRIVATE")) == svc)

/-- Layer 2 of `findCabLeg`: ignore `serviceClass`. -/
def legMatch2 (island fromZ toZ trip veh : String) (leg : CabLeg) : Bool :=
  (norm leg.islandId == island) && (norm leg.fromZone == fromZ) &&
  (norm leg.toZone == toZ) && (norm (strOr leg.tripType ("ONE_WAY")) == trip) &&
  (norm (strOr leg.vehicleClass ("SEDAN")) == veh)

/-- Layer 3 of `findCabLeg`: ignore `tripType` and `serviceClass`,
still requiring the vehicle class. -/
def legMatch3 (island fromZ toZ veh : String) (leg : CabLeg) : Bool :=
  (norm leg.islandId == island) && (norm leg.fromZone == fromZ) &&
  (norm leg.toZone == toZ) && (norm (strOr leg.vehicleClass ("SEDAN")) == veh)

/-- Layer 4 of `findCabLeg`: just island + from/to. -/
def legMatch4 (island fromZ toZ : String) (leg : CabLeg) : Bool :=
  (norm leg.islandId == island) && (norm leg.fromZone == fromZ) &&
  (norm leg.toZone == toZ)

/-- The normalised island of a query. -/
def qIsland (q : CabQuery) : String := norm q.islandId

/-- The normalised origin zone of a query. -/
def qFrom (q : CabQuery) : String := norm q.fromZone

/-- The normalised destination zone of a query. -/
def qTo (q : CabQuery) : String := norm q.toZone

/-- The normalised trip type of a query (`"ONE_WAY"` when absent). -/
def qTrip (q : CabQuery) : String := norm (strOr q.tripType ("ONE_WAY"))

/-- The normalised vehicle class of a query (`"SEDAN"` when absent). -/
def qVeh (q : CabQuery) : String := norm (strOr q.vehicleClass ("SEDAN"))

/-- The normalised service class of a query (`"PRIVATE"` when absent). -/
def qSvc (q : CabQuery) : String := norm (strOr q.serviceClass ("PRIVATE"))

/-- Layer-1 predicate instantiated at a query. -/
def layer1 (q : CabQuery) : CabLeg → Bool :=
  legMatch1 (qIsland q) (qFrom q) (qTo q) (qTrip q) (qVeh q) (qSvc q)

/-- Layer-2 predicate instantiated at a query. -/
def layer2 (q : CabQuery) : CabLeg → Bool :=
  legMatch2 (qIsland q) (qFrom q) (qTo q) (qTrip q) (qVeh q)

/-- Layer-3 predicate instantiated at a query. -/
def layer3 (q : CabQuery) : CabLeg → Bool :=
  legMatch3 (qIsland q) (qFrom q) (qTo q) (qVeh q)

/-- Layer-4 predicate instantiated at a query. -/
def layer4 (q : CabQuery) : CabLeg → Bool :=
  legMatch4 (qIsland q) (qFrom q) (qTo q)

/-- `findCabLeg` from `src/cabPricing.js`: guard on empty island/zones,
then four matching layers tried in order, the first hit winning. -/
def findCabLeg (legs : List CabLeg) (q : CabQuery) : Option CabLeg :=
  if qIsland q = "" ∨ qFrom q = "" ∨ qTo q = "" then none
  else
    match legs.find? (layer1 q) with
    | some l => some l
    | none =>
      match legs.find? (layer2 q) with
      | some l => some l
      | none =>
        match legs.find? (layer3 q) with
        | some l => some l
        | none => legs.find? (layer4 q)

/-! ## Cab fare calculation (`src/cabPricing.js`) -/

/-- The request object of `calculateCabFare`. -/
structure CabFareQuery where
  islandId : String
  fromZone : String
  toZone : String
  isNight : Bool
  passengers : JSVal
  tripType : String
  vehicleClass : String
  serviceClass : String
deriving DecidableEq, Repr

/-- The result object of `calculateCabFare`:
`{ leg, fareINR, perPersonINR, label }`. -/
structure CabFareResult where
  leg : CabLeg
  fareINR : JSVal
  perPersonINR : JSVal
  label : String
deriving DecidableEq, Repr

/-- `Number(leg.dayFareINR || 0)` from `calculateCabFare`. -/
def cabDayFare (leg : CabLeg) : JSVal := jsNumber (jsOr leg.dayFareINR (.num 0))

/-- `Number(leg.nightFareINR || dayFare)` from `calculateCabFare`. -/
def cabNightFare (leg : CabLeg) : JSVal :=
  jsNumber (jsOr leg.nightFareINR (cabDayFare leg))

/-- `isNight ? nightFare : dayFare` from `calculateCabFare`. -/
def cabBaseFare (leg : CabLeg) (isNight : Bool) : JSVal :=
  if isNight then cabNightFare leg else cabDayFare leg

/-- `typeof passengers === "number" && passengers > 0 ? passengers : 1`
(`NaN` is of type number but `NaN > 0` is false). -/
def safePassengers : JSVal → ℚ
  | .num p => if 0 < p then p else 1
  | _ => 1

/-- JS division of a `Number`-valued fare by a positive finite count;
`NaN` propagates. -/
def jsDivPos (v : JSVal) (d : ℚ) : JSVal :=
  match v with
  | .num q => .num (q / d)
  | _ => .nan

/-- `calculateCabFare` from `src/cabPricing.js`. -/
def calculateCabFare (legs : List CabLeg) (q : CabFareQuery) : Option CabFareResult :=
  match findCabLeg legs
      ⟨q.islandId, q.fromZone, q.toZone, q.tripType, q.vehicleClass, q.serviceClass⟩ with
  | none => none
  | some leg =>
    let baseFare := cabBaseFare leg q.isNight
    some ⟨leg, baseFare, jsDivPos baseFare (safePassengers q.passengers),
      if q.isNight then ("Night cab") else ("Day cab")⟩

/-! ## Ferry cost estimation (prototype variant `estimateFerryCost`) -/

/-- One operator entry of a ferry route. -/
structure FerryOperator where
  sampleFareINR : JSVal
deriving DecidableEq, Repr

/-- A row of the ferries table. -/
structure FerryRoute where
  originId : String
  destinationId : String
  operators : List FerryOperator
deriving DecidableEq, Repr

/-- `hasPB ? ["PB", ...islands.filter((id) => id !== "PB")] : islands`
from `estimateFerryCost`. -/
def orderedIslands (islands : List String) : List String :=
  if islands.contains ("PB") then
    ("PB") :: islands.filter (fun i => i ≠ ("PB"))
  else islands

/-- The consecutive pairs `[ordered[i], ordered[i+1]]` of a list. -/
def consecutivePairs : List String → List (String × String)
  | a :: b :: rest => (a, b) :: consecutivePairs (b :: rest)
  | _ => []

/-- The legs built by `estimateFerryCost`: consecutive pairs of the
ordered islands plus, when PB is present and the ordered list does not
end at PB, a closing leg back to PB. -/
def ferryLegsSrc (islands : List String) : List (String × String) :=
  let hasPB := islands.contains ("PB")
  let ordered := orderedIslands islands
  let base := consecutivePairs ordered
  if hasPB && ((ordered.getLast?.getD ("")) != ("PB")) then
    base ++ [((ordered.getLast?.getD ("")), ("PB"))]
  else base

/-- The visiting sequence the legs trace out: the ordered islands,
closed back to the hub under the same condition `estimateFerryCost`
uses for its extra leg. -/
def visitingSequence (islands : List String) : List String :=
  let ordered := orderedIslands islands
  if islands.contains ("PB") && ((ordered.getLast?.getD ("")) != ("PB")) then
    ordered ++ [("PB")]
  else ordered

/-- Route lookup for one leg: exact `(origin, destination)` match first,
then the reversed pair. -/
def routeFor (ferries : List FerryRoute) (fromZ toZ : String) : Option FerryRoute :=
  (ferries.find? fun f => (f.originId == fromZ) && (f.destinationId == toZ)).orElse
    fun _ => ferries.find? fun f => (f.originId == toZ) && (f.destinationId == fromZ)

/-- The positive per-person fares of a route:
`route.operators.map((op) => safeNum(op.sampleFareINR)).filter((v) => v > 0)`. -/
def positiveFares (r : FerryRoute) : List ℚ :=
  (r.operators.map fun op => safeNum op.sampleFareINR).filter fun v => 0 < v

/-- `Math.min(...)` over a non-empty list (callers guard emptiness). -/
def listMin : List ℚ → ℚ
  | [] => 0
  | x :: xs => xs.foldl min x

/-- The contribution of one leg to the ferry total:
`0` when no route or no positive fare, else `minFare * safeNum(pax)`. -/
def ferryLegCost (ferries : List FerryRoute) (pax : JSVal) (leg : String × String) : ℚ :=
  match routeFor ferries leg.1 leg.2 with
  | none => 0
  | some r =>
    let fares := positiveFares r
    if fares = [] then 0 else listMin fares * safeNum pax

/-- `estimateFerryCost` from the prototype variant: guard on fewer than
two islands, then accumulate the per-leg contributions. -/
def estimateFerryCost (islands : List String) (ferries : List FerryRoute)
    (pax : JSVal) : ℚ :=
  if islands.length ≤ 1 then 0
  else if (orderedIslands islands).length < 2 then 0
  else ((ferryLegsSrc islands).map (ferryLegCost ferries pax)).sum

/-! ## Markups and hotel / activity costs (prototype variant) -/

/-- `const MARKUP = { cab: 0.1, hotel: 0.2, activity: 0.15 }`. -/
structure MarkupConfig where
  cab : ℚ
  hotel : ℚ
  activity : ℚ
deriving DecidableEq, Repr

/-- The markup constants of the prototype variant. -/
def MARKUP : MarkupConfig := ⟨1 / 10, 2 / 10, 15 / 100⟩

/-- The pricing-relevant fields of a hotel row. -/
structure Hotel where
  typicalCoupleINR : JSVal
  minNightlyINR : JSVal
  maxNightlyINR : JSVal
deriving DecidableEq, Repr

/-- The nightly rate of `hotelsCost`:
`safeNum(typicalCoupleINR) || safeNum(minNightlyINR) || safeNum(maxNightlyINR)`. -/
def hotelNightly (h : Hotel) : ℚ :=
  qOr (safeNum h.typicalCoupleINR)
    (qOr (safeNum h.minNightlyINR) (safeNum h.maxNightlyINR))

/-- One hotel line of `hotelsCost`:
`nightly * safeNum(n) * (1 + MARKUP.hotel)`. -/
def hotelLineTotal (h : Hotel) (n : JSVal) : ℚ :=
  hotelNightly h * safeNum n * (1 + MARKUP.hotel)

/-- `hotelsCost`: the sum of the marked-up hotel lines over the
selected `(hotel, nights)` pairs. -/
def hotelsCost (sels : List (Hotel × JSVal)) : ℚ :=
  (sels.map fun p => hotelLineTotal p.1 p.2).sum

/-- The pricing-relevant fields of an adventure/activity row. -/
structure Adventure where
  id : String
  unit : String
  basePriceINR : JSVal
deriving DecidableEq, Repr

/-- The `adventureById` map of the prototype variant: built by
assignment in table order (`if (adv.id) adventureById[adv.id] = adv`),
so a later duplicate id overwrites an earlier one. -/
def adventureById (advs : List Adventure) (aid : String) : Option Adventure :=
  advs.foldl (fun acc a => if a.id ≠ "" ∧ a.id = aid then some a else acc) none

/-- The unit multiplier of `activityCost`: the `if`/`else if` chain over
`adv.unit || "per_person"`. -/
def activityMultiplier (adv : Adventure) (adults : JSVal) : ℚ :=
  let unit := strOr adv.unit ("per_person")
  if unit = ("per_person") then qOr (safeNum adults) 1
  else if unit = ("per_group") then 1
  else if unit = ("per_boat") then 1
  else if unit = ("per_vehicle") then 1
  else 1

/-- One activity line of `activityCost`: skipped (`0`) when the base
price coerces to `0`, else `base * multiplier * (1 + MARKUP.activity)`. -/
def activityLine (adv : Adventure) (adults : JSVal) : ℚ :=
  let base := safeNum adv.basePriceINR
  if base = 0 then 0
  else base * activityMultiplier adv adults * (1 + MARKUP.activity)

/-- `activityCost`: the loop over the selected adventure ids, silently
skipping ids that resolve to no adventure. -/
def activityCost (selected : List String) (advs : List Adventure)
    (adults : JSVal) : ℚ :=
  selected.foldl
    (fun total aid =>
      match adventureById advs aid with
      | none => total
      | some adv => total + activityLine adv adults)
    0

/-! ## Cab daily-rate table (prototype variant `cabDailyRates`) -/

/-- A row of the cabs table as grouped by `cabDailyRates`. -/
structure CabRow where
  islandId : String
  vehicleClass : String
  dayFareINR : JSVal
  nightFareINR : JSVal
deriving DecidableEq, Repr

/-- The grouping key of a row:
`` `${r.islandId || "??"}|${r.vehicleClass || "sedan"}` ``. -/
def rowKey (r : CabRow) : String × String :=
  (strOr r.islandId ("??"), strOr r.vehicleClass ("sedan"))

/-- A group accumulator: the day-fare list and the night-fare list. -/
abbrev FareGroup := List ℚ × List ℚ

/-- Push the positive day and night fares of a row onto a group. -/
def pushRow (g : FareGroup) (r : CabRow) : FareGroup :=
  (if 0 < safeNum r.dayFareINR then g.1 ++ [safeNum r.dayFareINR] else g.1,
   if 0 < safeNum r.nightFareINR then g.2 ++ [safeNum r.nightFareINR] else g.2)

/-- One loop step of the grouping pass: create the group on first
sight of a key, then push the row's positive fares. -/
def addRow (groups : List ((String × String) × FareGroup)) (r : CabRow) :
    List ((String × String) × FareGroup) :=
  if groups.any fun e => e.1 = rowKey r then
    groups.map fun e => if e.1 = rowKey r then (e.1, pushRow e.2 r) else e
  else groups ++ [(rowKey r, pushRow ([], []) r)]

/-- The grouping pass of `cabDailyRates` over the cabs table. -/
def cabGroups (cabs : List CabRow) : List ((String × String) × FareGroup) :=
  cabs.foldl addRow []

/-- Look up a key's group, as JS property access `group[key]` does
(the empty group when absent; keys are unique by construction). -/
def lookupGroup : List ((String × String) × FareGroup) → (String × String) → FareGroup
  | [], _ => ([], [])
  | e :: rest, key => if e.1 = key then e.2 else lookupGroup rest key

/-- Ascending sort used by `median` (`[...arr].sort((a, b) => a - b)`). -/
def sortAsc (l : List ℚ) : List ℚ := l.insertionSort (fun a b => a ≤ b)

/-- `median` from `cabDailyRates`: `0` on the empty list; the middle
element of the ascending sort for odd length; the average of the two
middle elements for even length. -/
def median (l : List ℚ) : ℚ :=
  if l.length = 0 then 0
  else
    let sorted := sortAsc l
    let mid := l.length / 2
    if l.length % 2 = 0 then (sorted.getD (mid - 1) 0 + sorted.getD mid 0) / 2
    else sorted.getD mid 0

/-- The `(day, night)` median rates `cabDailyRates` stores for a key. -/
def cabDailyRate (cabs : List CabRow) (key : String × String) : ℚ × ℚ :=
  let g := lookupGroup (cabGroups cabs) key
  (median g.1, median g.2)

/-- The positive day fares, in table order, of the rows sharing a key
(the specification-level description of a group's day list). -/
def posDayFares (cabs : List CabRow) (key : String × String) : List ℚ :=
  ((cabs.filter fun r => rowKey r = key).map fun r => safeNum r.dayFareINR).filter
    fun v => 0 < v

/-- The positive night fares, in table order, of the rows sharing a key. -/
def posNightFares (cabs : List CabRow) (key : String × String) : List ℚ :=
  ((cabs.filter fun r => rowKey r = key).map fun r => safeNum r.nightFareINR).filter
    fun v => 0 < v

/-! ## Grand total (`src/App.jsx`) -/

/-- The tax/fee part of the pricing configuration. -/
structure PricingConfig where
  taxPercent : JSVal
  serviceFee : JSVal
deriving DecidableEq, Repr

/-- `const baseSubtotal = cabTotal + ferryTotal + hotelTotal + adventureTotal`. -/
def baseSubtotal (cabTotal ferryTotal hotelTotal adventureTotal : ℚ) : ℚ :=
  cabTotal + ferryTotal + hotelTotal + adventureTotal

/-- `taxAmount` from `src/App.jsx`: taxed only when `taxPercent` is a
positive number. -/
def taxAmount (subtotal : ℚ) (cfg : PricingConfig) : ℚ :=
  if 0 < safeNum cfg.taxPercent then subtotal * safeNum cfg.taxPercent / 100
  else 0

/-- `grandTotal` from `src/App.jsx`:
`baseSubtotal + taxAmount + serviceFee`. -/
def grandTotal (cabTotal ferryTotal hotelTotal adventureTotal : ℚ)
    (cfg : PricingConfig) : ℚ :=
  baseSubtotal cabTotal ferryTotal hotelTotal adventureTotal +
    taxAmount (baseSubtotal cabTotal ferryTotal hotelTotal adventureTotal) cfg +
    safeNum cfg.serviceFee

/-! ## Shared lemmas -/

theorem layer1_imp_layer4 (q : CabQuery) (l : CabLeg) (h : layer1 q l = true) :
    layer4 q l = true := by
  simp only [layer1, legMatch1, layer4, legMatch4, Bool.and_eq_true] at h ⊢
  tauto

theorem layer2_imp_layer4 (q : CabQuery) (l : CabLeg) (h : layer2 q l = true) :
    layer4 q l = true := by
  simp only [layer2, legMatch2, layer4, legMatch4, Bool.and_eq_true] at h ⊢
  tauto

theorem layer3_imp_layer4 (q : CabQuery) (l : CabLeg) (h : layer3 q l = true) :
    layer4 q l = true := by
  simp only [layer3, legMatch3, layer4, legMatch4, Bool.and_eq_true] at h ⊢
  tauto

theorem consecutivePairs_append_singleton (l : List String) (x d : String)
    (h : l ≠ []) :
    consecutivePairs (l ++ [x]) =
      consecutivePairs l ++ [(l.getLast?.getD d, x)] := by
  induction l with
  | nil => exact absurd rfl h
  | cons a rest ih =>
    cases rest with
    | nil => simp [consecutivePairs]
    | cons b rest2 =>
      have ih2 := ih (by simp)
      have h2 : consecutivePairs ((a :: b :: rest2) ++ [x]) =
          (a, b) :: consecutivePairs ((b :: rest2) ++ [x]) := rfl
      rw [h2, ih2, List.getLast?_cons_cons]
      rfl

theorem foldl_min_le_init (xs : List ℚ) (a : ℚ) : xs.foldl min a ≤ a := by
  induction xs generalizing a with
  | nil => simp
  | cons y ys ih =>
    calc (y :: ys).foldl min a = ys.foldl min (min a y) := rfl
    _ ≤ min a y := ih (min a y)
    _ ≤ a := min_le_left a y

theorem foldl_min_le_mem (xs : List ℚ) (a x : ℚ) (hx : x ∈ xs) :
    xs.foldl min a ≤ x := by
  induction xs generalizing a with
  | nil => simp at hx
  | cons y ys ih =>
    rcases List.mem_cons.mp hx with h | h
    · subst h
      calc (x :: ys).foldl min a = ys.foldl min (min a x) := rfl
      _ ≤ min a x := foldl_min_le_init ys (min a x)
      _ ≤ x := min_le_right a x
    · exact ih (min a y) h

theorem foldl_min_mem (xs : List ℚ) (a : ℚ) :
    xs.foldl min a = a ∨ xs.foldl min a ∈ xs := by
  induction xs generalizing a with
  | nil => simp
  | cons y ys ih =>
    rcases ih (min a y) with h | h
    · rcases min_choice a y with hm | hm
      · left
        calc (y :: ys).foldl min a = ys.foldl min (min a y) := rfl
        _ = min a y := h
        _ = a := hm
      · right
        refine List.mem_cons.mpr (Or.inl ?_)
        calc (y :: ys).foldl min a = ys.foldl min (min a y) := rfl
        _ = min a y := h
        _ = y := hm
    · exact Or.inr (List.mem_cons.mpr (Or.inr h))

/-! ## Claim theorems -/

/-- C1: for every cab-leg request whose normalized `islandId`, `fromZone`
and `toZone` are non-empty, `findCabLeg` tries the four matching layers in
order — (1) exact on all six fields, (2) without `serviceClass`, (3)
without `tripType` and `serviceClass` but with `vehicleClass`, (4) only
`(islandId, fromZone, toZone)` — returns the first layer's first match,
and returns `null` exactly when even layer 4 has no match; in particular
a request matching some row up to `serviceClass` resolves rather than
returning `null`. -/
theorem findCabLeg_layered_relaxation (legs : List CabLeg) (q : CabQuery)
    (hI : qIsland q ≠ "") (hF : qFrom q ≠ "") (hT : qTo q ≠ "") :
    (findCabLeg legs q =
      (((legs.find? (layer1 q)).orElse fun _ => legs.find? (layer2 q)).orElse
        fun _ => legs.find? (layer3 q)).orElse fun _ => legs.find? (layer4 q)) ∧
    (findCabLeg legs q = none ↔ ∀ l ∈ legs, layer4 q l = false) ∧
    ((∃ l ∈ legs, layer2 q l = true) → findCabLeg legs q ≠ none) := by
  have hguard : ¬(qIsland q = "" ∨ qFrom q = "" ∨ qTo q = "") := by tauto
  refine ⟨?_, ?_, ?_⟩
  · rw [findCabLeg, if_neg hguard]
    cases h1 : legs.find? (layer1 q) <;>
      cases h2 : legs.find? (layer2 q) <;>
        cases h3 : legs.find? (layer3 q) <;>
          simp [Option.orElse]
  · rw [findCabLeg, if_neg hguard]
    constructor
    · intro h l hl
      cases h1 : legs.find? (layer1 q) <;> rw [h1] at h
      · cases h2 : legs.find? (layer2 q) <;> rw [h2] at h
        · cases h3 : legs.find? (layer3 q) <;> rw [h3] at h
          · have := List.find?_eq_none.mp h l hl
            simpa using this
          · simp at h
        · simp at h
      · simp at h
    · intro h
      have h1 : legs.find? (layer1 q) = none :=
        List.find?_eq_none.mpr fun l hl hc => by
          have := h l hl; rw [layer1_imp_layer4 q l hc] at this; simp at this
      have h2 : legs.find? (layer2 q) = none :=
        List.find?_eq_none.mpr fun l hl hc => by
          have := h l hl; rw [layer2_imp_layer4 q l hc] at this; simp at this
      have h3 : legs.find? (layer3 q) = none :=
        List.find?_eq_none.mpr fun l hl hc => by
          have := h l hl; rw [layer3_imp_layer4 q l hc] at this; simp at this
      have h4 : legs.find? (layer4 q) = none :=
        List.find?_eq_none.mpr fun l hl hc => by
          have := h l hl; rw [hc] at this; simp at this
      rw [h1, h2, h3, h4]
  · rintro ⟨l, hl, hmatch⟩
    rw [findCabLeg, if_neg hguard]
    cases h1 : legs.find? (layer1 q)
    · cases h2 : legs.find? (layer2 q)
      · exact absurd (List.find?_eq_none.mp h2 l hl) (by simp [hmatch])
      · simp
    · simp

/-- Demo leg used to witness the cab-matching theorems. -/
def c1Leg : CabLeg :=
  ⟨("PB"), ("AIRPORT"), ("CITY_CORE"), ("ONE_WAY"), ("SEDAN"), ("PRIVATE"),
    .num 800, .num 1000⟩

/-- Demo query whose `serviceClass` matches no row. -/
def c1Query : CabQuery :=
  ⟨("PB"), ("AIRPORT"), ("CITY_CORE"), ("ONE_WAY"), ("SEDAN"), ("SHARED")⟩

theorem findCabLeg_layered_relaxation_witness :
    findCabLeg [c1Leg] c1Query ≠ none :=
  (findCabLeg_layered_relaxation [c1Leg] c1Query (by decide) (by decide)
    (by decide)).2.2 ⟨c1Leg, by decide, by decide⟩

/-- C10: a request whose `islandId`, `fromZone` or `toZone` is missing,
empty or whitespace-only after normalization makes `findCabLeg` return
`null` without attempting any matching layer. -/
theorem findCabLeg_empty_guard (legs : List CabLeg) (q : CabQuery)
    (h : qIsland q = "" ∨ qFrom q = "" ∨ qTo q = "") :
    findCabLeg legs q = none := by
  rw [findCabLeg, if_pos h]

theorem findCabLeg_empty_guard_witness :
    findCabLeg [c1Leg] ⟨("  "), ("AIRPORT"), ("CITY_CORE"), ("ONE_WAY"),
      ("SEDAN"), ("PRIVATE")⟩ = none :=
  findCabLeg_empty_guard [c1Leg] _ (Or.inl (by decide))

/-- C3: the ferry cost estimator forces the hub island `"PB"` to the
front of the visiting sequence when present and appends a closing leg
back to `"PB"` when the sequence does not already end there, keeps the
other islands in the supplied order, and returns `0` for fewer than two
selected islands; the legs priced are exactly the consecutive pairs of
that visiting sequence, and for `{"PB","HL","NL"}` the sequence is
`["PB","HL","NL","PB"]`. -/
theorem ferry_visiting_sequence (islands : List String)
    (ferries : List FerryRoute) (pax : JSVal) :
    (islands.length ≤ 1 → estimateFerryCost islands ferries pax = 0) ∧
    (("PB") ∈ islands → islands.filter (fun i => i ≠ ("PB")) ≠ [] →
      visitingSequence islands =
        ("PB") :: islands.filter (fun i => i ≠ ("PB")) ++ [("PB")]) ∧
    (("PB") ∉ islands → visitingSequence islands = islands) ∧
    ferryLegsSrc islands = consecutivePairs (visitingSequence islands) ∧
    visitingSequence [("PB"), ("HL"), ("NL")] =
      [("PB"), ("HL"), ("NL"), ("PB")] := by
  refine ⟨?_, ?_, ?_, ?_, by decide⟩
  · intro h
    rw [estimateFerryCost, if_pos h]
  · intro hPB hf
    have hc : islands.contains ("PB") = true := List.elem_eq_true_of_mem hPB
    cases hF : islands.filter (fun i => i ≠ ("PB")) with
    | nil => exact absurd hF hf
    | cons b fs =>
      obtain ⟨y, hy⟩ := Option.isSome_iff_exists.mp
        (List.getLast?_isSome.mpr (List.cons_ne_nil b fs))
      have hymem : y ∈ islands.filter (fun i => i ≠ ("PB")) := by
        rw [hF]; exact List.mem_of_mem_getLast? hy
      have hyne : y ≠ ("PB") := by
        simpa using (List.mem_filter.mp hymem).2
      simp only [visitingSequence, orderedIslands, hc, if_true, hF,
        List.getLast?_cons_cons, hy, Option.getD_some, Bool.true_and]
      rw [if_pos (by simpa using hyne)]
  · intro hPB
    have hc : islands.contains ("PB") = false := by
      cases h : islands.contains ("PB") with
      | false => rfl
      | true => exact absurd (List.mem_of_elem_eq_true h) hPB
    simp [visitingSequence, orderedIslands, hPB]
  · cases hc : islands.contains ("PB") with
    | false =>
      have hmem : ("PB") ∉ islands := fun hm => by
        have h2 : islands.contains ("PB") = true := List.elem_eq_true_of_mem hm
        rw [h2] at hc
        exact Bool.noConfusion hc
      simp [ferryLegsSrc, visitingSequence, orderedIslands, hmem]
    | true =>
      simp only [ferryLegsSrc, visitingSequence, orderedIslands, hc,
        Bool.true_and, if_true]
      cases hcond : ((("PB") :: islands.filter fun i => i ≠ ("PB")).getLast?.getD ("")) !=
          ("PB") with
      | false => simp
      | true =>
        simp only [eq_self_iff_true, if_true]
        rw [consecutivePairs_append_singleton _ _ ("") (List.cons_ne_nil _ _)]

theorem ferry_visiting_sequence_witness :
    visitingSequence [("PB"), ("HL"), ("NL")] =
      [("PB"), ("HL"), ("NL"), ("PB")] :=
  ((ferry_visiting_sequence [("PB"), ("HL"), ("NL")] [] JSVal.undef).2.1
    (by decide) (by decide)).trans (by decide)

/-- C4: for a consecutive island pair the resolver looks up a route by
exact `(origin, destination)` match and then by the reversed pair; a
pair with no route contributes `0`, and a found route contributes the
minimum positive `sampleFareINR` over its operators times the traveler
count (`0` when no operator has a positive fare). -/
theorem ferry_pair_resolution (ferries : List FerryRoute) (pax : JSVal)
    (a b : String) :
    (routeFor ferries a b = none ↔
      (∀ f ∈ ferries, ¬(f.originId = a ∧ f.destinationId = b)) ∧
      (∀ f ∈ ferries, ¬(f.originId = b ∧ f.destinationId = a))) ∧
    (routeFor ferries a b = none → ferryLegCost ferries pax (a, b) = 0) ∧
    (∀ r, (ferries.find? fun f => (f.originId == a) && (f.destinationId == b)) = some r →
      routeFor ferries a b = some r) ∧
    ((ferries.find? fun f => (f.originId == a) && (f.destinationId == b)) = none →
      routeFor ferries a b =
        ferries.find? fun f => (f.originId == b) && (f.destinationId == a)) ∧
    (∀ r, routeFor ferries a b = some r → positiveFares r = [] →
      ferryLegCost ferries pax (a, b) = 0) ∧
    (∀ r, routeFor ferries a b = some r → positiveFares r ≠ [] →
      ferryLegCost ferries pax (a, b) = listMin (positiveFares r) * safeNum pax ∧
      listMin (positiveFares r) ∈ positiveFares r ∧
      ∀ x ∈ positiveFares r, listMin (positiveFares r) ≤ x) ∧
    (∀ r : FerryRoute, ∀ x ∈ positiveFares r, 0 < x) := by
  refine ⟨?_, ?_, ?_, ?_, ?_, ?_, ?_⟩
  · constructor
    · intro h
      have h2 : (ferries.find? fun f => (f.originId == a) && (f.destinationId == b)) = none ∧
          (ferries.find? fun f => (f.originId == b) && (f.destinationId == a)) = none := by
        rw [routeFor] at h
        cases h1 : ferries.find? fun f => (f.originId == a) && (f.destinationId == b) <;>
          rw [h1] at h <;> simp [Option.orElse] at h ⊢
        exact h
      constructor
      · intro f hf hcontra
        have := List.find?_eq_none.mp h2.1 f hf
        simp [hcontra.1, hcontra.2] at this
      · intro f hf hcontra
        have := List.find?_eq_none.mp h2.2 f hf
        simp [hcontra.1, hcontra.2] at this
    · rintro ⟨h1, h2⟩
      have hf1 : (ferries.find? fun f => (f.originId == a) && (f.destinationId == b)) = none :=
        List.find?_eq_none.mpr fun f hf hc => by
          simp only [Bool.and_eq_true, beq_iff_eq] at hc
          exact h1 f hf hc
      have hf2 : (ferries.find? fun f => (f.originId == b) && (f.destinationId == a)) = none :=
        List.find?_eq_none.mpr fun f hf hc => by
          simp only [Bool.and_eq_true, beq_iff_eq] at hc
          exact h2 f hf hc
      rw [routeFor, hf1, hf2]
      rfl
  · intro h
    unfold ferryLegCost
    rw [h]
  · intro r h
    rw [routeFor, h]
    rfl
  · intro h
    rw [routeFor, h]
    cases hf2 : ferries.find? fun f => (f.originId == b) && (f.destinationId == a) <;> rfl
  · intro r h hfares
    unfold ferryLegCost
    rw [h]
    simp [hfares]
  · intro r h hfares
    refine ⟨?_, ?_, ?_⟩
    · unfold ferryLegCost
      rw [h]
      simp [hfares]
    · cases hl : positiveFares r with
      | nil => exact absurd hl hfares
      | cons x xs =>
        have : listMin (x :: xs) = xs.foldl min x := rfl
        rw [this]
        rcases foldl_min_mem xs x with h2 | h2
        · rw [h2]; exact List.mem_cons_self x xs
        · exact List.mem_cons.mpr (Or.inr h2)
    · intro x hx
      cases hl : positiveFares r with
      | nil => exact absurd hl hfares
      | cons z zs =>
        rw [hl] at hx
        have : listMin (z :: zs) = zs.foldl min z := rfl
        rw [this]
        rcases List.mem_cons.mp hx with h2 | h2
        · subst h2; exact foldl_min_le_init zs x
        · exact foldl_min_le_mem zs z x h2
  · intro r x hx
    have := (List.mem_filter.mp hx).2
    simpa using this

/-- Demo ferry route used to witness the pair-resolution theorem. -/
def c4Route : FerryRoute :=
  ⟨("PB"), ("HL"), [⟨.num 500⟩, ⟨.num 450⟩, ⟨.undef⟩]⟩

theorem ferry_pair_resolution_witness :
    ferryLegCost [c4Route] (.num 2) (("HL"), ("PB")) = 900 := by
  have h := ((ferry_pair_resolution [c4Route] (.num 2) ("HL") ("PB")).2.2.2.2.2.1)
    c4Route (by decide) (by decide)
  rw [h.1]
  have hpf : positiveFares c4Route = [500, 450] := by decide
  rw [hpf]
  norm_num [listMin, min_def, safeNum]

/-- C5: a selected hotel's nightly rate resolves via the fallback chain
`typicalCoupleINR` → `minNightlyINR` → `maxNightlyINR` → `0` (a field
falls through exactly when its safe-numeric coercion is `0`), and the
line total is `nightly * nights * (1 + hotelMarkup)` with the default
hotel markup of 20%. -/
theorem hotel_fallback_and_markup (h : Hotel) (n : JSVal) :
    (safeNum h.typicalCoupleINR ≠ 0 →
      hotelNightly h = safeNum h.typicalCoupleINR) ∧
    (safeNum h.typicalCoupleINR = 0 → safeNum h.minNightlyINR ≠ 0 →
      hotelNightly h = safeNum h.minNightlyINR) ∧
    (safeNum h.typicalCoupleINR = 0 → safeNum h.minNightlyINR = 0 →
      hotelNightly h = safeNum h.maxNightlyINR) ∧
    (safeNum h.typicalCoupleINR = 0 → safeNum h.minNightlyINR = 0 →
      safeNum h.maxNightlyINR = 0 → hotelNightly h = 0) ∧
    hotelLineTotal h n = hotelNightly h * safeNum n * (1 + MARKUP.hotel) ∧
    MARKUP.hotel = 20 / 100 := by
  refine ⟨?_, ?_, ?_, ?_, rfl, by norm_num [MARKUP]⟩
  · intro h1
    simp [hotelNightly, qOr, h1]
  · intro h1 h2
    simp [hotelNightly, qOr, h1, h2]
  · intro h1 h2
    simp [hotelNightly, qOr, h1, h2]
  · intro h1 h2 h3
    simp [hotelNightly, qOr, h1, h2, h3]

theorem hotel_fallback_and_markup_witness :
    hotelNightly ⟨.undef, .num 6500, .num 9000⟩ = 6500 :=
  (hotel_fallback_and_markup ⟨.undef, .num 6500, .num 9000⟩ (.num 3)).2.1
    (by decide) (by decide)

/-- C6 counterexample: an activity priced `per_person` with traveler
count `0` is charged `1200 * 1 * 1.15 = 1380` — the code substitutes
multiplier `1`, not the traveler count `0` the claim's formula gives. -/
theorem activity_unit_pricing_counterexample :
    activityCost [("a1")] [⟨("a1"), ("per_person"), .num 1200⟩] (.num 0) = 1380 ∧
    (1380 : ℚ) ≠ 1200 * safeNum (JSVal.num 0) * (1 + MARKUP.activity) := by
  constructor
  · norm_num +decide [activityCost, adventureById, activityLine,
      activityMultiplier, safeNum, qOr, strOr, MARKUP]
  · norm_num [safeNum, MARKUP]

/-- C6 (amended): a selected activity's line total is
`basePriceINR * unitMultiplier * (1 + activityMarkup)`, where the unit
multiplier is the traveler count for `per_person` whenever that count
coerces to a nonzero number (it is `1` when the count coerces to `0`),
and `1` for `per_group`, `per_boat`, `per_vehicle` and `per_trip`;
e.g. base `1200` with `per_person` and 3 travelers gives
`1200*3*(1+markup)` and `per_boat` gives `1200*(1+markup)` regardless
of traveler count. -/
theorem activity_unit_pricing (adv : Adventure) (adults : JSVal) :
    (strOr adv.unit ("per_person") = ("per_person") → safeNum adults ≠ 0 →
      activityLine adv adults =
        safeNum adv.basePriceINR * safeNum adults * (1 + MARKUP.activity)) ∧
    (strOr adv.unit ("per_person") = ("per_group") ∨
      strOr adv.unit ("per_person") = ("per_boat") ∨
      strOr adv.unit ("per_person") = ("per_vehicle") ∨
      strOr adv.unit ("per_person") = ("per_trip") →
      activityLine adv adults =
        safeNum adv.basePriceINR * 1 * (1 + MARKUP.activity)) ∧
    activityLine ⟨("a"), ("per_person"), .num 1200⟩ (.num 3) =
      1200 * 3 * (1 + MARKUP.activity) ∧
    activityLine ⟨("a"), ("per_boat"), .num 1200⟩ adults =
      1200 * (1 + MARKUP.activity) ∧
    MARKUP.activity = 15 / 100 := by
  refine ⟨?_, ?_, ?_, ?_, by norm_num [MARKUP]⟩
  · intro hu ha
    by_cases hb : safeNum adv.basePriceINR = 0
    · simp [activityLine, hb]
    · simp [activityLine, hb, activityMultiplier, hu, qOr, ha]
  · intro hu
    by_cases hb : safeNum adv.basePriceINR = 0
    · simp [activityLine, hb]
    · rcases hu with h1 | h1 | h1 | h1 <;>
        simp +decide [activityLine, hb, activityMultiplier, h1]
  · norm_num +decide [activityLine, activityMultiplier, safeNum, qOr,
      strOr, MARKUP]
  · norm_num +decide [activityLine, activityMultiplier, safeNum, qOr,
      strOr, MARKUP]

theorem activity_unit_pricing_witness :
    activityLine ⟨("w1"), ("per_person"), .num 500⟩ (.num 4) =
      500 * 4 * (1 + MARKUP.activity) :=
  (activity_unit_pricing ⟨("w1"), ("per_person"), .num 500⟩ (.num 4)).1
    (by decide) (by decide)

theorem lookupGroup_map_ne (groups : List ((String × String) × FareGroup))
    (r : CabRow) (key : String × String) (hk : rowKey r ≠ key) :
    lookupGroup
      (groups.map fun e => if e.1 = rowKey r then (e.1, pushRow e.2 r) else e)
      key = lookupGroup groups key := by
  induction groups with
  | nil => rfl
  | cons e rest ih =>
    by_cases he : e.1 = rowKey r
    · have hne : ¬(e.1 = key) := fun hc => hk (he ▸ hc)
      simp only [List.map_cons, if_pos he, lookupGroup, if_neg hne]
      exact ih
    · simp only [List.map_cons, if_neg he, lookupGroup]
      by_cases hek : e.1 = key
      · rw [if_pos hek, if_pos hek]
      · rw [if_neg hek, if_neg hek]
        exact ih

theorem lookupGroup_map_eq (groups : List ((String × String) × FareGroup))
    (r : CabRow) (key : String × String) (hk : rowKey r = key)
    (hmem : ∃ e ∈ groups, e.1 = key) :
    lookupGroup
      (groups.map fun e => if e.1 = rowKey r then (e.1, pushRow e.2 r) else e)
      key = pushRow (lookupGroup groups key) r := by
  induction groups with
  | nil => simp at hmem
  | cons e rest ih =>
    by_cases hek : e.1 = key
    · have he : e.1 = rowKey r := by rw [hek, hk]
      simp only [List.map_cons, if_pos he, lookupGroup, if_pos hek]
    · have he : ¬(e.1 = rowKey r) := by rw [hk]; exact hek
      have hmem2 : ∃ x ∈ rest, x.1 = key := by
        rcases hmem with ⟨x, hx, hxk⟩
        rcases List.mem_cons.mp hx with h1 | h1
        · exact absurd (h1 ▸ hxk) hek
        · exact ⟨x, h1, hxk⟩
      simp only [List.map_cons, if_neg he, lookupGroup, if_neg hek]
      exact ih hmem2

theorem lookupGroup_append_self (groups : List ((String × String) × FareGroup))
    (v : FareGroup) (key : String × String) (hnone : ∀ e ∈ groups, ¬(e.1 = key)) :
    lookupGroup (groups ++ [(key, v)]) key = v := by
  induction groups with
  | nil => simp [lookupGroup]
  | cons e rest ih =>
    have hek : ¬(e.1 = key) := hnone e (List.mem_cons_self e rest)
    simp only [List.cons_append, lookupGroup, if_neg hek]
    exact ih fun x hx => hnone x (List.mem_cons.mpr (Or.inr hx))

theorem lookupGroup_append_ne (groups : List ((String × String) × FareGroup))
    (kv : (String × String) × FareGroup) (key : String × String)
    (hne : ¬(kv.1 = key)) :
    lookupGroup (groups ++ [kv]) key = lookupGroup groups key := by
  induction groups with
  | nil => simp [lookupGroup, if_neg hne]
  | cons e rest ih =>
    by_cases hek : e.1 = key
    · simp only [List.cons_append, lookupGroup, if_pos hek]
    · simp only [List.cons_append, lookupGroup, if_neg hek]
      exact ih

theorem lookupGroup_default (groups : List ((String × String) × FareGroup))
    (key : String × String) (hnone : ∀ e ∈ groups, ¬(e.1 = key)) :
    lookupGroup groups key = ([], []) := by
  induction groups with
  | nil => rfl
  | cons e rest ih =>
    have hek : ¬(e.1 = key) := hnone e (List.mem_cons_self e rest)
    simp only [lookupGroup, if_neg hek]
    exact ih fun x hx => hnone x (List.mem_cons.mpr (Or.inr hx))

theorem lookupGroup_addRow (groups : List ((String × String) × FareGroup))
    (r : CabRow) (key : String × String) :
    lookupGroup (addRow groups r) key =
      if rowKey r = key then pushRow (lookupGroup groups key) r
      else lookupGroup groups key := by
  by_cases hk : rowKey r = key
  · rw [if_pos hk]
    unfold addRow
    by_cases hp : (groups.any fun e => e.1 = rowKey r) = true
    · rw [if_pos hp]
      refine lookupGroup_map_eq groups r key hk ?_
      rcases List.any_eq_true.mp hp with ⟨e, he, hek⟩
      exact ⟨e, he, hk ▸ (by simpa using hek)⟩
    · rw [if_neg hp]
      have hnone : ∀ e ∈ groups, ¬(e.1 = key) := by
        intro e he hek
        exact hp (List.any_eq_true.mpr ⟨e, he, by simp [hek, hk]⟩)
      rw [lookupGroup_default groups key hnone, hk,
        lookupGroup_append_self groups _ key hnone]
  · rw [if_neg hk]
    unfold addRow
    by_cases hp : (groups.any fun e => e.1 = rowKey r) = true
    · rw [if_pos hp]
      exact lookupGroup_map_ne groups r key hk
    · rw [if_neg hp]
      exact lookupGroup_append_ne groups _ key hk

theorem lookupGroup_foldl (rows : List CabRow)
    (acc : List ((String × String) × FareGroup)) (key : String × String) :
    lookupGroup (rows.foldl addRow acc) key =
      ((lookupGroup acc key).1 ++ posDayFares rows key,
        (lookupGroup acc key).2 ++ posNightFares rows key) := by
  induction rows generalizing acc with
  | nil =>
    simp [posDayFares, posNightFares]
  | cons r rest ih =>
    show lookupGroup (rest.foldl addRow (addRow acc r)) key = _
    rw [ih (addRow acc r), lookupGroup_addRow]
    by_cases hk : rowKey r = key
    · rw [if_pos hk]
      by_cases hd : 0 < safeNum r.dayFareINR <;>
        by_cases hn : 0 < safeNum r.nightFareINR <;>
          simp [pushRow, posDayFares, posNightFares, List.filter_cons, hk, hd,
            hn, List.append_assoc]
    · rw [if_neg hk]
      simp [posDayFares, posNightFares, List.filter_cons, hk]

/-- C7: the cab daily-rate table groups all cab rows sharing
`(islandId, vehicleClass)` (with the code's `"??"`/`"sedan"` defaults
for missing fields) and stores, per group, the median of its positive
day fares and the median of its positive night fares; the median of an
empty list is `0`, of an even-length list the average of the two middle
values after ascending sort, of an odd-length list the middle value;
`[1000, 1200, 1400]` gives `1200` and `[1000, 1200]` gives `1100`. -/
theorem cab_daily_rates_median (cabs : List CabRow) (key : String × String) :
    cabDailyRate cabs key =
      (median (posDayFares cabs key), median (posNightFares cabs key)) ∧
    median ([] : List ℚ) = 0 ∧
    (∀ l : List ℚ, l ≠ [] → l.length % 2 = 0 →
      median l =
        ((sortAsc l).getD (l.length / 2 - 1) 0 + (sortAsc l).getD (l.length / 2) 0) / 2) ∧
    (∀ l : List ℚ, l ≠ [] → l.length % 2 = 1 →
      median l = (sortAsc l).getD (l.length / 2) 0) ∧
    median [1000, 1200, 1400] = 1200 ∧ median [1000, 1200] = 1100 := by
  refine ⟨?_, rfl, ?_, ?_, ?_, ?_⟩
  · unfold cabDailyRate cabGroups
    rw [lookupGroup_foldl]
    rfl
  · intro l hl hev
    rw [median, if_neg (by simpa [List.length_eq_zero] using hl), if_pos hev]
  · intro l hl hodd
    rw [median, if_neg (by simpa [List.length_eq_zero] using hl),
      if_neg (by omega)]
  · norm_num [median, sortAsc, List.insertionSort, List.orderedInsert]
  · norm_num [median, sortAsc, List.insertionSort, List.orderedInsert]

theorem cab_daily_rates_median_witness :
    median [1000, 1200] =
      ((sortAsc [1000, 1200]).getD 0 0 + (sortAsc [1000, 1200]).getD 1 0) / 2 :=
  (cab_daily_rates_median [] (("??"), ("sedan"))).2.2.1 [1000, 1200]
    (by decide) (by decide)

/-- C2 counterexample: with a negative `taxPercent` (`-50`) and a lone
hotel subtotal of `23400`, the code's grand total is `23400` (the tax
guard yields `0`), while the claimed formula
`subtotal * (1 + taxPercent/100) + serviceFee` gives `11700`. -/
theorem grand_total_counterexample :
    grandTotal 0 0 23400 0 ⟨.num (-50), .num 0⟩ = 23400 ∧
    (23400 : ℚ) ≠ (0 + 0 + 23400 + 0) * (1 + (-50) / 100) + 0 := by
  constructor
  · norm_num [grandTotal, baseSubtotal, taxAmount, safeNum]
  · norm_num

/-- C2 (amended): the grand total is
`subtotal + tax + serviceFee` with
`subtotal = cabs + ferries + hotels + activities` and
`tax = subtotal * taxPercent/100` when `taxPercent` is a positive
number, else `tax = 0`; hence for every non-negative `taxPercent`,
`grandTotal = subtotal * (1 + taxPercent/100) + serviceFee`, and with a
single hotel line of `23400` and no other selections
`grandTotal = 23400 * (1 + taxPercent/100) + serviceFee`. -/
theorem grand_total_formula (cab ferry hotel adv : ℚ) (cfg : PricingConfig)
    (h : 0 ≤ safeNum cfg.taxPercent) :
    grandTotal cab ferry hotel adv cfg =
      (hotel + cab + adv + ferry) * (1 + safeNum cfg.taxPercent / 100) +
        safeNum cfg.serviceFee ∧
    grandTotal 0 0 hotel 0 cfg =
      hotel * (1 + safeNum cfg.taxPercent / 100) + safeNum cfg.serviceFee := by
  constructor <;>
  · unfold grandTotal baseSubtotal taxAmount
    rcases eq_or_lt_of_le h with h2 | h2
    · rw [if_neg (by rw [← h2]; exact lt_irrefl 0), ← h2]
      ring
    · rw [if_pos h2]
      ring

theorem grand_total_formula_witness :
    grandTotal 0 0 23400 0 ⟨.num 5, .num 200⟩ =
      23400 * (1 + safeNum (JSVal.num 5) / 100) + safeNum (JSVal.num 200) :=
  (grand_total_formula 0 0 23400 0 ⟨.num 5, .num 200⟩ (by decide)).2

/-- `Number` is idempotent on the values it produces. -/
theorem jsNumber_jsNumber (v : JSVal) : jsNumber (jsNumber v) = jsNumber v := by
  cases v <;> simp [jsNumber]
  split_ifs <;> simp [jsNumber]

/-- C8 (amended): for a resolved leg, night-time pricing uses
`nightFareINR` when that field is truthy (a nonzero number), and falls
back to `Number(dayFareINR || 0)` otherwise; day-time pricing always
uses `Number(dayFareINR || 0)` and never falls back to the night
fare. -/
theorem cab_fare_selection (legs : List CabLeg) (q : CabFareQuery) (leg : CabLeg)
    (h : findCabLeg legs
      ⟨q.islandId, q.fromZone, q.toZone, q.tripType, q.vehicleClass,
        q.serviceClass⟩ = some leg) :
    (calculateCabFare legs q).map CabFareResult.fareINR =
      some (cabBaseFare leg q.isNight) ∧
    (jsTruthy leg.nightFareINR = true →
      cabBaseFare leg true = jsNumber leg.nightFareINR) ∧
    (jsTruthy leg.nightFareINR = false →
      cabBaseFare leg true = cabDayFare leg) ∧
    cabBaseFare leg false = cabDayFare leg ∧
    cabDayFare leg = jsNumber (jsOr leg.dayFareINR (.num 0)) := by
  refine ⟨?_, ?_, ?_, rfl, rfl⟩
  · unfold calculateCabFare
    rw [h]
    rfl
  · intro ht
    simp [cabBaseFare, cabNightFare, jsOr, ht]
  · intro hf
    simp only [cabBaseFare, cabNightFare, jsOr, hf, Bool.false_eq_true,
      if_false, ite_false, if_true]
    simpa [cabDayFare] using jsNumber_jsNumber (jsOr leg.dayFareINR (.num 0))

/-- Demo leg whose day fare is missing but whose night fare is present. -/
def c8Leg : CabLeg :=
  ⟨("PB"), ("AIRPORT"), ("CITY_CORE"), ("ONE_WAY"), ("SEDAN"), ("PRIVATE"),
    .undef, .num 2000⟩

/-- C8 counterexample: requesting day pricing on a leg whose
`dayFareINR` is missing yields fare `0`; the code does not fall back to
the available `nightFareINR` of `2000` as the claim's "falls back to
the other one" requires. -/
theorem cab_fare_selection_counterexample :
    (calculateCabFare [c8Leg]
      ⟨("PB"), ("AIRPORT"), ("CITY_CORE"), false, .num 2, ("ONE_WAY"),
        ("SEDAN"), ("PRIVATE")⟩).map CabFareResult.fareINR =
      some (.num 0) ∧
    JSVal.num 0 ≠ JSVal.num 2000 := ⟨by decide, by decide⟩

/-- Demo leg with both fares present, used to witness night selection. -/
def c8wLeg : CabLeg :=
  ⟨("PB"), ("AIRPORT"), ("CITY_CORE"), ("ONE_WAY"), ("SEDAN"), ("PRIVATE"),
    .num 800, .num 1500⟩

/-- Demo night-time query resolving to `c8wLeg`. -/
def c8wQuery : CabFareQuery :=
  ⟨("PB"), ("AIRPORT"), ("CITY_CORE"), true, .num 2, ("ONE_WAY"), ("SEDAN"),
    ("PRIVATE")⟩

theorem cab_fare_selection_witness :
    (calculateCabFare [c8wLeg] c8wQuery).map CabFareResult.fareINR =
      some (JSVal.num 1500) := by
  have h := cab_fare_selection [c8wLeg] c8wQuery c8wLeg (by decide)
  have h2 : cabBaseFare c8wLeg c8wQuery.isNight = JSVal.num 1500 := by
    have h3 := h.2.1 (by decide)
    exact h3
  rw [h.1, h2]

theorem adventureById_mem_aux (advs : List Adventure) (aid : String)
    (acc : Option Adventure) (a : Adventure)
    (h : advs.foldl
      (fun acc x => if x.id ≠ "" ∧ x.id = aid then some x else acc) acc =
      some a) :
    a ∈ advs ∨ acc = some a := by
  induction advs generalizing acc with
  | nil => exact Or.inr h
  | cons x rest ih =>
    rcases ih _ h with h2 | h2
    · exact Or.inl (List.mem_cons.mpr (Or.inr h2))
    · by_cases hc : x.id ≠ "" ∧ x.id = aid
      · simp only [if_pos hc] at h2
        exact Or.inl (List.mem_cons.mpr (Or.inl (Option.some.inj h2).symm))
      · simp only [if_neg hc] at h2
        exact Or.inr h2

theorem adventureById_mem (advs : List Adventure) (aid : String)
    (a : Adventure) (h : adventureById advs aid = some a) : a ∈ advs := by
  rcases adventureById_mem_aux advs aid none a h with h2 | h2
  · exact h2
  · exact Option.noConfusion h2

theorem activityMultiplier_nonneg (adv : Adventure) (adults : JSVal)
    (ha : 0 ≤ safeNum adults) : 0 ≤ activityMultiplier adv adults := by
  simp only [activityMultiplier, qOr]
  by_cases hu : strOr adv.unit ("per_person") = ("per_person")
  · rw [if_pos hu]
    split_ifs
    · norm_num
    · exact ha
  · rw [if_neg hu]
    split_ifs <;> norm_num

theorem activityLine_nonneg (adv : Adventure) (adults : JSVal)
    (hb : 0 ≤ safeNum adv.basePriceINR) (ha : 0 ≤ safeNum adults) :
    0 ≤ activityLine adv adults := by
  simp only [activityLine]
  split_ifs with h
  · exact le_refl 0
  · exact mul_nonneg (mul_nonneg hb (activityMultiplier_nonneg adv adults ha))
      (by norm_num [MARKUP])

theorem activityCost_nonneg_aux (selected : List String) (advs : List Adventure)
    (adults : JSVal) (hb : ∀ a ∈ advs, 0 ≤ safeNum a.basePriceINR)
    (ha : 0 ≤ safeNum adults) (init : ℚ) (hi : 0 ≤ init) :
    0 ≤ selected.foldl
      (fun total aid =>
        match adventureById advs aid with
        | none => total
        | some adv => total + activityLine adv adults)
      init := by
  induction selected generalizing init with
  | nil => exact hi
  | cons aid rest ih =>
    refine ih _ ?_
    show (0 : ℚ) ≤ match adventureById advs aid with
      | none => init
      | some adv => init + activityLine adv adults
    cases h : adventureById advs aid with
    | none => exact hi
    | some adv =>
      exact add_nonneg hi
        (activityLine_nonneg adv adults (hb adv (adventureById_mem advs aid adv h)) ha)

theorem activityCost_nonneg (selected : List String) (advs : List Adventure)
    (adults : JSVal) (hb : ∀ a ∈ advs, 0 ≤ safeNum a.basePriceINR)
    (ha : 0 ≤ safeNum adults) : 0 ≤ activityCost selected advs adults :=
  activityCost_nonneg_aux selected advs adults hb ha 0 (le_refl 0)

theorem hotelsCost_nonneg (sels : List (Hotel × JSVal))
    (h : ∀ p ∈ sels, 0 ≤ safeNum p.1.typicalCoupleINR ∧
      0 ≤ safeNum p.1.minNightlyINR ∧ 0 ≤ safeNum p.1.maxNightlyINR ∧
      0 ≤ safeNum p.2) :
    0 ≤ hotelsCost sels := by
  unfold hotelsCost
  apply List.sum_nonneg
  intro x hx
  rcases List.mem_map.mp hx with ⟨p, hp, rfl⟩
  obtain ⟨h1, h2, h3, h4⟩ := h p hp
  unfold hotelLineTotal hotelNightly qOr
  refine mul_nonneg (mul_nonneg ?_ h4) (by norm_num [MARKUP])
  split_ifs <;> assumption

theorem listMin_nonneg (l : List ℚ) (h : ∀ x ∈ l, 0 ≤ x) : 0 ≤ listMin l := by
  cases l with
  | nil => exact le_refl 0
  | cons x xs =>
    have he : listMin (x :: xs) = xs.foldl min x := rfl
    rcases foldl_min_mem xs x with h2 | h2
    · rw [he, h2]
      exact h x (List.mem_cons_self x xs)
    · rw [he]
      exact h _ (List.mem_cons.mpr (Or.inr h2))

theorem ferryLegCost_nonneg (ferries : List FerryRoute) (pax : JSVal)
    (leg : String × String) (hp : 0 ≤ safeNum pax) :
    0 ≤ ferryLegCost ferries pax leg := by
  unfold ferryLegCost
  cases h : routeFor ferries leg.1 leg.2 with
  | none => exact le_refl 0
  | some r =>
    show 0 ≤ if positiveFares r = [] then 0 else listMin (positiveFares r) * safeNum pax
    split_ifs with hf
    · exact le_refl 0
    · refine mul_nonneg (listMin_nonneg _ ?_) hp
      intro x hx
      have := (List.mem_filter.mp hx).2
      exact le_of_lt (by simpa using this)

theorem estimateFerryCost_nonneg (islands : List String)
    (ferries : List FerryRoute) (pax : JSVal) (hp : 0 ≤ safeNum pax) :
    0 ≤ estimateFerryCost islands ferries pax := by
  unfold estimateFerryCost
  split_ifs
  · exact le_refl 0
  · exact le_refl 0
  · apply List.sum_nonneg
    intro x hx
    rcases List.mem_map.mp hx with ⟨p, hp2, rfl⟩
    exact ferryLegCost_nonneg ferries pax p hp

theorem grandTotal_nonneg (cab ferry hotel adv : ℚ) (cfg : PricingConfig)
    (h1 : 0 ≤ cab) (h2 : 0 ≤ ferry) (h3 : 0 ≤ hotel) (h4 : 0 ≤ adv)
    (hf : 0 ≤ safeNum cfg.serviceFee) :
    0 ≤ grandTotal cab ferry hotel adv cfg := by
  unfold grandTotal baseSubtotal taxAmount
  have hs : 0 ≤ cab + ferry + hotel + adv := by linarith
  split_ifs with ht
  · have htax : 0 ≤ (cab + ferry + hotel + adv) * safeNum cfg.taxPercent / 100 :=
      div_nonneg (mul_nonneg hs (le_of_lt ht)) (by norm_num)
    linarith
  · linarith

/-- C9 counterexample: the safe-numeric guard passes negative numbers
through unchanged, so a hotel row with `typicalCoupleINR = -100` and
one night produces the negative line total `-120`, violating the
claimed non-negativity of every output amount. -/
theorem safe_numeric_guard_counterexample :
    hotelsCost [(⟨.num (-100), .undef, .undef⟩, .num 1)] = -120 ∧
    ¬(0 ≤ (-120 : ℚ)) := by
  constructor
  · norm_num [hotelsCost, hotelLineTotal, hotelNightly, safeNum, qOr, MARKUP]
  · norm_num

/-- C9 (amended): monetary inputs pass through the safe-numeric guard,
which coerces any non-numeric or non-finite value to `0`
(`safeNum("abc") = safeNum(NaN) = safeNum(undefined) = 0`,
`safeNum(42) = 42`) so no `NaN` reaches a total, and every category
total and the grand total is a non-negative (finite) number provided
the numeric inputs themselves are non-negative; a negative numeric
input is passed through unchanged and can make a total negative. -/
theorem safe_numeric_guard :
    safeNum (.str ("abc")) = 0 ∧ safeNum .nan = 0 ∧ safeNum .undef = 0 ∧
    safeNum (.num 42) = 42 ∧
    (∀ sels : List (Hotel × JSVal),
      (∀ p ∈ sels, 0 ≤ safeNum p.1.typicalCoupleINR ∧
        0 ≤ safeNum p.1.minNightlyINR ∧ 0 ≤ safeNum p.1.maxNightlyINR ∧
        0 ≤ safeNum p.2) →
      0 ≤ hotelsCost sels) ∧
    (∀ (selected : List String) (advs : List Adventure) (adults : JSVal),
      (∀ a ∈ advs, 0 ≤ safeNum a.basePriceINR) → 0 ≤ safeNum adults →
      0 ≤ activityCost selected advs adults) ∧
    (∀ (islands : List String) (ferries : List FerryRoute) (pax : JSVal),
      0 ≤ safeNum pax → 0 ≤ estimateFerryCost islands ferries pax) ∧
    (∀ (cab ferry hotel adv : ℚ) (cfg : PricingConfig),
      0 ≤ cab → 0 ≤ ferry → 0 ≤ hotel → 0 ≤ adv →
      0 ≤ safeNum cfg.serviceFee → 0 ≤ grandTotal cab ferry hotel adv cfg) :=
  ⟨rfl, rfl, rfl, rfl, hotelsCost_nonneg, activityCost_nonneg,
    estimateFerryCost_nonneg, grandTotal_nonneg⟩

theorem safe_numeric_guard_witness :
    0 ≤ grandTotal 100 200 300 400 ⟨.num 5, .num 50⟩ :=
  safe_numeric_guard.2.2.2.2.2.2.2 100 200 300 400 ⟨.num 5, .num 50⟩
    (by norm_num) (by norm_num) (by norm_num) (by norm_num) (by decide)

end Andaman

